import Mathlib

/-!
# Verification of the cadre-devkit hook scripts

Shallow embedding of the four hook scripts of this repository:

* `src/hooks/security/dangerous-command-blocker.py`
* `src/hooks/security/sensitive-file-guard.py`
* `src/hooks/formatting/auto-format.py`
* `src/hooks/testing/test-on-change.py`

Each hook reads one JSON record from stdin, extracts a target field,
evaluates a fixed policy or runs an external command, and terminates with
an exit status (0 = allow, 2 = block, 1 = generic failure).  We model

* Python regular-expression search (`re.search`) for the concrete patterns
  of the command blocker via Brzozowski derivatives;
* Python substring containment (`in`) and `str.lower()` (the rule texts are
  ASCII, so mapping characters with `Char.toLower` agrees with Python on
  every character that can influence a match);
* `json.load` / `dict.get` decoding, with `Except Unit` marking the states
  in which the script raises an uncaught exception (the process then fails
  with the interpreter's error status instead of exiting 0/1/2);
* the outcome of the external `subprocess.run` call as an explicit
  environment parameter (completed with some exit code, executable
  missing, wall-clock timeout, or - for the testing hook, which catches
  bare `Exception` - any other error).
-/

set_option autoImplicit false

namespace CadreHooks

/-- Exit status together with the lines written to stdout and stderr. -/
structure HookResult where
  exitCode : Nat
  stdoutLines : List String
  stderrLines : List String
  deriving DecidableEq, Repr

/-! ## Characters and substrings -/

/-- Characters matched by Python's `\s` in a `str` pattern (Unicode
whitespace: the six ASCII escapes plus the file/group/record/unit
separators and the Unicode space characters). -/
def wsChar (c : Char) : Bool :=
  c == ' ' || c == '\t' || c == '\n' || c == '\x0b' || c == '\x0c' || c == '\r' ||
  c == '\x1c' || c == '\x1d' || c == '\x1e' || c == '\x1f' || c == '\x85' || c == '\xa0' ||
  c == '\u1680' || ('\u2000' ≤ c && c ≤ '\u200a') ||
  c == '\u2028' || c == '\u2029' || c == '\u202f' || c == '\u205f' || c == '\u3000'

/-- `startsWithL needle hay`: `needle` is a leading segment of `hay`. -/
def startsWithL : List Char → List Char → Bool
  | [], _ => true
  | _ :: _, [] => false
  | a :: as, b :: bs => a == b && startsWithL as bs

/-- Python's `needle in hay` on strings: `needle` occurs contiguously in
`hay` (always true for the empty needle). -/
def hasSub (needle : List Char) : List Char → Bool
  | [] => startsWithL needle []
  | c :: cs => startsWithL needle (c :: cs) || hasSub needle cs

/-- Python's `str.lower()`, restricted to the ASCII case mapping
(`Char.toLower`); the patterns below are ASCII, so this agrees with
Python wherever it matters for a match. -/
def lowerStr (s : List Char) : List Char :=
  s.map Char.toLower

/-! ## Regular expressions (the fragment used by the command blocker)

The nine blocked-command patterns use only literal characters, `\s`
(whitespace class), `.` (any character except newline), `*` and `+`.
We give these classical Brzozowski-derivative semantics; `reSearch`
is Python's `re.search` viewed as a boolean (a match starting at any
position). -/

/-- A single-character pattern atom. -/
inductive CAtom where
  | lit (c : Char)
  | ws
  | dot
  deriving DecidableEq

/-- Which characters an atom matches (`.` does not match a newline). -/
def CAtom.matchesChar : CAtom → Char → Bool
  | .lit c, d => c == d
  | .ws, d => wsChar d
  | .dot, d => !(d == '\n')

/-- Regular expressions over `CAtom`. -/
inductive Regex where
  | emp
  | eps
  | atom (a : CAtom)
  | seq (r s : Regex)
  | alt (r s : Regex)
  | star (r : Regex)
  deriving DecidableEq

/-- Does the regex accept the empty string? -/
def nullable : Regex → Bool
  | .emp => false
  | .eps => true
  | .atom _ => false
  | .seq r s => nullable r && nullable s
  | .alt r s => nullable r || nullable s
  | .star _ => true

/-- Brzozowski derivative with respect to one character. -/
def deriv : Regex → Char → Regex
  | .emp, _ => .emp
  | .eps, _ => .emp
  | .atom a, c => if a.matchesChar c then .eps else .emp
  | .seq r s, c =>
      if nullable r then .alt (.seq (deriv r c) s) (deriv s c)
      else .seq (deriv r c) s
  | .alt r s, c => .alt (deriv r c) (deriv s c)
  | .star r, c => .seq (deriv r c) (.star r)

/-- Does `r` match some leading segment of `s` (Python `re.match` as a
boolean)? -/
def matchesAt : Regex → List Char → Bool
  | r, [] => nullable r
  | r, c :: cs => nullable r || matchesAt (deriv r c) cs

/-- Python `re.search(r, s)` as a boolean: `r` matches a segment starting
at some position of `s`. -/
def reSearch (r : Regex) : List Char → Bool
  | [] => nullable r
  | c :: cs => matchesAt r (c :: cs) || reSearch r cs

/-- Concatenation of the literal atoms of a string. -/
def rstr (s : String) : Regex :=
  s.data.foldr (fun c r => .seq (.atom (.lit c)) r) .eps

/-- `\s+` -/
def wsPlus : Regex := .seq (.atom .ws) (.star (.atom .ws))

/-- `\s*` -/
def wsStar : Regex := .star (.atom .ws)

/-- `.*` -/
def dotStar : Regex := .star (.atom .dot)

/-! ## `dangerous-command-blocker.py` -/

/-- `rm\s+-rf\s+/` — recursive delete from root. -/
def rmRfRoot : Regex :=
  .seq (rstr "rm") (.seq wsPlus (.seq (rstr "-rf") (.seq wsPlus (rstr "/"))))

/-- `chmod\s+777` — overly permissive permissions. -/
def chmod777 : Regex := .seq (rstr "chmod") (.seq wsPlus (rstr "777"))

/-- `sudo\s+` — elevated privileges. -/
def sudoCmd : Regex := .seq (rstr "sudo") wsPlus

/-- `dd\s+if=` — disk operations. -/
def ddIf : Regex := .seq (rstr "dd") (.seq wsPlus (rstr "if="))

/-- `mkfs\.` — format filesystem. -/
def mkfsDot : Regex := rstr "mkfs."

/-- `npm\s+publish` — accidental package publishing. -/
def npmPublish : Regex := .seq (rstr "npm") (.seq wsPlus (rstr "publish"))

/-- `git\s+push.*--force` — force push. -/
def gitForcePush : Regex :=
  .seq (rstr "git") (.seq wsPlus (.seq (rstr "push") (.seq dotStar (rstr "--force"))))

/-- `mv\s+.*\s+/` — move to root. -/
def mvToRoot : Regex :=
  .seq (rstr "mv") (.seq wsPlus (.seq dotStar (.seq wsPlus (rstr "/"))))

/-- `>\s*/dev/` — write to system devices. -/
def devWrite : Regex := .seq (rstr ">") (.seq wsStar (rstr "/dev/"))

/-- The ordered pattern list of `dangerous-command-blocker.py`, each with
the source text of the pattern (printed in the block message). -/
def dangerous_patterns : List (Regex × String) :=
  [(rmRfRoot, "rm\\s+-rf\\s+/"),
   (chmod777, "chmod\\s+777"),
   (sudoCmd, "sudo\\s+"),
   (ddIf, "dd\\s+if="),
   (mkfsDot, "mkfs\\."),
   (npmPublish, "npm\\s+publish"),
   (gitForcePush, "git\\s+push.*--force"),
   (mvToRoot, "mv\\s+.*\\s+/"),
   (devWrite, ">\\s*/dev/")]

/-- The first dangerous pattern that `re.search` finds in the command
(the Python `for` loop exits on the first match). -/
def firstDangerous (command : String) : Option (Regex × String) :=
  dangerous_patterns.find? (fun pr => reSearch pr.1 command.data)

/-- The command blocker after decoding: on a match it prints three lines
to stderr and exits 2, otherwise it exits 0 silently. -/
def dangerousCommandBlocker (command : String) : HookResult :=
  match firstDangerous command with
  | some pr =>
      ⟨2, [],
       ["BLOCKED: Dangerous command pattern detected: " ++ pr.2,
        "Command attempted: " ++ command,
        "\nIf this is intentional, run manually outside Claude Code."]⟩
  | none => ⟨0, [], []⟩

/-! ## `sensitive-file-guard.py` -/

/-- The first tier of `sensitive-file-guard.py`: literal substrings tested
with `pattern in file_path.lower()`. -/
def sensitive_patterns : List String :=
  [".env", ".env.local", ".env.production", ".env.development",
   ".key", ".pem", ".p12", ".pfx",
   "credentials.json", "secrets.yaml", "secrets.json",
   ".git/config", "id_rsa", "id_ed25519", "id_dsa",
   ".aws/credentials", ".ssh/config", "password", "secret"]

/-- The second tier: directory markers tested with `dir_pattern in
file_path` on the raw (not lowercased) path. -/
def sensitive_dirs : List String :=
  [".ssh/", ".aws/", ".gnupg/", "secrets/", "private/"]

/-- First tier-one pattern contained in the lowercased path. -/
def tier1 (file_path : String) : Option String :=
  sensitive_patterns.find? (fun pat => hasSub pat.data (lowerStr file_path.data))

/-- First tier-two directory marker contained in the raw path. -/
def tier2 (file_path : String) : Option String :=
  sensitive_dirs.find? (fun d => hasSub d.data file_path.data)

/-- The sensitive-file guard after decoding: a tier-one hit prints three
lines to stderr and exits 2; otherwise a tier-two hit prints one line and
exits 2; otherwise it exits 0 silently. -/
def sensitiveFileGuard (file_path : String) : HookResult :=
  match tier1 file_path with
  | some pat =>
      ⟨2, [],
       ["BLOCKED: Sensitive file access detected: " ++ file_path,
        "Pattern matched: " ++ pat,
        "\nTo edit sensitive files, use your editor directly."]⟩
  | none =>
      match tier2 file_path with
      | some _ => ⟨2, [], ["BLOCKED: File in sensitive directory: " ++ file_path]⟩
      | none => ⟨0, [], []⟩

/-! ## The stdin decoder shared by the hooks

`data = json.load(sys.stdin)` followed by
`data.get('tool_input', \x7b\x7d).get(key, '')`.  We model the stdin
contents as `Option JValue`: `none` is input that is not valid JSON
(`json.load` raises, the process dies with the interpreter's error
status), `some v` is the parsed value.  `.get` exists only on
dictionaries; on any other value Python raises `AttributeError`, which no
hook catches.  `Except Unit` tracks exactly these uncaught exceptions. -/

/-- A parsed JSON value. -/
inductive JValue where
  | jnull
  | jbool (b : Bool)
  | jnum (n : Int)
  | jstr (s : String)
  | jarr (elems : List JValue)
  | jobj (fields : List (String × JValue))

/-- Python `v.get(key, dflt)`: defined on dictionaries, raises
`AttributeError` on every other value. -/
def jget (v : JValue) (key : String) (dflt : JValue) : Except Unit JValue :=
  match v with
  | .jobj fields => .ok ((fields.lookup key).getD dflt)
  | _ => .error ()

/-- The decode step of every hook for field `key` (`"command"` or
`"file_path"`): parse stdin, then
`data.get('tool_input', \x7b\x7d).get(key, '')`. -/
def decodeField (input : Option JValue) (key : String) : Except Unit JValue :=
  match input with
  | none => .error ()
  | some data =>
      match jget data "tool_input" (.jobj []) with
      | .error _ => .error ()
      | .ok ti => jget ti key (.jstr "")

/-- `dangerous-command-blocker.py` from raw stdin.  A non-string
`command` value reaches `re.search(pattern, command)`, which raises
`TypeError` on the first loop iteration — an uncaught exception. -/
def runCommandBlocker (input : Option JValue) : Except Unit HookResult :=
  match decodeField input "command" with
  | .error _ => .error ()
  | .ok (.jstr s) => .ok (dangerousCommandBlocker s)
  | .ok _ => .error ()

/-- `sensitive-file-guard.py` from raw stdin.  A non-string `file_path`
value reaches `file_path.lower()`, which raises `AttributeError` — an
uncaught exception. -/
def runSensitiveGuard (input : Option JValue) : Except Unit HookResult :=
  match decodeField input "file_path" with
  | .error _ => .error ()
  | .ok (.jstr s) => .ok (sensitiveFileGuard s)
  | .ok _ => .error ()

/-! ## `os.path.splitext` -/

/-- The part of the path after the last `/` (`os.path.basename` on a
POSIX system). -/
def afterLastSlash (p : List Char) : List Char :=
  p.foldl (fun acc c => if c == '/' then [] else acc ++ [c]) []

/-- Suffix of `rest` starting at its last `.`, or `[]` when `rest` has no
dot. -/
def lastDotSuffix : List Char → List Char
  | [] => []
  | c :: cs =>
      let r := lastDotSuffix cs
      if c == '.' && r.isEmpty then c :: cs else r

/-- `os.path.splitext(p)[1]`: the extension of the basename, where the
leading run of dots of the basename (as in `.env`) never starts an
extension. -/
def extOf (p : List Char) : List Char :=
  lastDotSuffix ((afterLastSlash p).dropWhile (fun c => c == '.'))

/-! ## `auto-format.py`

The hook runs after an edit; whether the target file exists
(`os.path.exists`) and how the external formatter behaves are facts about
the environment, passed in as explicit parameters.  `subprocess.run` is
called with `check=True`, so a completed run with nonzero exit code
raises `CalledProcessError`, which the script catches and turns into a
silent `sys.exit(1)`.  The second component of the result collects the
external command lines handed to `subprocess.run`. -/

/-- Outcome of the formatter subprocess: it completed with some exit
code, the executable was missing (`FileNotFoundError`), or the timeout
of 10 seconds expired (`TimeoutExpired`). -/
inductive FmtOutcome where
  | completed (code : Int)
  | missing
  | timedOut
  deriving DecidableEq

/-- The extension-to-formatter dictionary of `auto-format.py`. -/
def formatters : List (String × List String) :=
  [(".ts", ["npx", "prettier", "--write"]),
   (".tsx", ["npx", "prettier", "--write"]),
   (".js", ["npx", "prettier", "--write"]),
   (".jsx", ["npx", "prettier", "--write"]),
   (".py", ["black", "--line-length", "100"])]

/-- `auto-format.py` after decoding: result and the list of external
commands invoked. -/
def autoFormat (file_path : String) (fileExists : Bool) (oc : FmtOutcome) :
    HookResult × List (List String) :=
  if file_path == "" || !fileExists then (⟨0, [], []⟩, [])
  else
    match formatters.find? (fun f => f.1 == String.mk (extOf file_path.data)) with
    | none => (⟨0, [], []⟩, [])
    | some f =>
        match oc with
        | .completed code =>
            if code == 0 then (⟨0, ["✓ Formatted " ++ file_path], []⟩, [f.2 ++ [file_path]])
            else (⟨1, [], []⟩, [f.2 ++ [file_path]])
        | .missing => (⟨1, [], ["Formatter not available"]⟩, [f.2 ++ [file_path]])
        | .timedOut => (⟨1, [], ["Formatter timeout"]⟩, [f.2 ++ [file_path]])

/-! ## `test-on-change.py`

Here the `try` block additionally catches bare `Exception`, so the
environment has a fourth outcome carrying the exception text. -/

/-- Outcome of the test-runner subprocess (timeout: 60 seconds). -/
inductive TestOutcome where
  | completed (code : Int)
  | missing
  | timedOut
  | otherError (msg : String)
  deriving DecidableEq

/-- The extension allow-list of `test-on-change.py`. -/
def test_extensions : List String :=
  [".ts", ".tsx", ".js", ".jsx", ".py"]

/-- "Determine test command": `pytest` for `.py`, `npm test` otherwise. -/
def testCmdFor (file_path : String) : List String :=
  if String.mk (extOf file_path.data) == ".py" then ["pytest", "-x", "-q", "--tb=short"]
  else ["npm", "test", "--", "--bail", "--findRelatedTests", file_path]

/-- `test-on-change.py` after decoding: result and the list of external
commands invoked. -/
def testOnChange (file_path : String) (oc : TestOutcome) :
    HookResult × List (List String) :=
  if file_path == "" then (⟨0, [], []⟩, [])
  else if !(test_extensions.contains (String.mk (extOf file_path.data))) then (⟨0, [], []⟩, [])
  else if hasSub "test".data (lowerStr file_path.data) || hasSub "__tests__".data file_path.data then
    (⟨0, [], []⟩, [])
  else if hasSub ".claude".data file_path.data then (⟨0, [], []⟩, [])
  else
    match oc with
    | .completed code =>
        if code == 0 then (⟨0, ["✓ Tests passing for " ++ file_path], []⟩, [testCmdFor file_path])
        else (⟨1, [], ["⚠️ Tests failed after editing " ++ file_path]⟩, [testCmdFor file_path])
    | .missing => (⟨0, [], []⟩, [testCmdFor file_path])
    | .timedOut => (⟨0, [], ["Test timeout for " ++ file_path]⟩, [testCmdFor file_path])
    | .otherError msg => (⟨0, [], ["Could not run tests: " ++ msg]⟩, [testCmdFor file_path])

end CadreHooks

namespace CadreHooks

/-! ## Helper lemmas -/

/-- `find?` succeeds when some member of the list satisfies the
predicate. -/
theorem find?_isSome_of_mem {α : Type} (p : α → Bool) (l : List α) (x : α)
    (hx : x ∈ l) (hpx : p x = true) : (l.find? p).isSome = true := by
  induction l with
  | nil => cases hx
  | cons a as ih =>
      by_cases hpa : p a = true
      · rw [List.find?_cons_of_pos _ hpa]; rfl
      · rw [List.find?_cons_of_neg _ hpa]
        rcases List.mem_cons.mp hx with h | h
        · exact absurd (h ▸ hpx) hpa
        · exact ih h

/-- A tier-one hit makes the sensitive-file guard exit 2. -/
theorem guard_exit_two_of_tier1 (fp : String) (h : (tier1 fp).isSome = true) :
    (sensitiveFileGuard fp).exitCode = 2 := by
  unfold sensitiveFileGuard
  cases hE : tier1 fp with
  | none => rw [hE] at h; simp at h
  | some pat => rfl

/-- The command blocker only ever exits 0 or 2. -/
theorem blocker_exit_zero_or_two (s : String) :
    (dangerousCommandBlocker s).exitCode = 0 ∨ (dangerousCommandBlocker s).exitCode = 2 := by
  unfold dangerousCommandBlocker
  cases hE : firstDangerous s with
  | none => exact Or.inl rfl
  | some pr => exact Or.inr rfl

/-- The sensitive-file guard only ever exits 0 or 2. -/
theorem guard_exit_zero_or_two (s : String) :
    (sensitiveFileGuard s).exitCode = 0 ∨ (sensitiveFileGuard s).exitCode = 2 := by
  unfold sensitiveFileGuard
  cases h1 : tier1 s with
  | some pat => exact Or.inr rfl
  | none =>
      cases h2 : tier2 s with
      | some d => exact Or.inr rfl
      | none => exact Or.inl rfl

/-! ## Claims -/

/-- C1: every command text containing a substring matched by the
root-recursive-delete rule `rm\s+-rf\s+/` makes the command blocker find
a matching rule and exit with status 2, printing the matched pattern to
standard error. -/
theorem c1_root_delete_blocked (s : String) (h : reSearch rmRfRoot s.data = true) :
    dangerousCommandBlocker s =
      ⟨2, [],
       ["BLOCKED: Dangerous command pattern detected: " ++ "rm\\s+-rf\\s+/",
        "Command attempted: " ++ s,
        "\nIf this is intentional, run manually outside Claude Code."]⟩ := by
  have hfd : firstDangerous s = some (rmRfRoot, "rm\\s+-rf\\s+/") := by
    unfold firstDangerous dangerous_patterns
    exact List.find?_cons_of_pos _ h
  unfold dangerousCommandBlocker
  rw [hfd]

/-- C1 witness: the command `rm -rf /` is blocked with exit status 2 and
the pattern text on stderr. -/
theorem c1_root_delete_blocked_witness :
    reSearch rmRfRoot "rm -rf /".data = true ∧
      dangerousCommandBlocker "rm -rf /" =
        ⟨2, [],
         ["BLOCKED: Dangerous command pattern detected: " ++ "rm\\s+-rf\\s+/",
          "Command attempted: " ++ "rm -rf /",
          "\nIf this is intentional, run manually outside Claude Code."]⟩ :=
  ⟨by decide, c1_root_delete_blocked "rm -rf /" (by decide)⟩

/-- C2: every path containing `.env`, `id_rsa`, or `secret` in any letter
casing is blocked with exit status 2, and `/home/user/project/readme.md`
matches no rule of either tier and exits 0. -/
theorem c2_sensitive_paths (fp : String)
    (h : hasSub ".env".data (lowerStr fp.data) = true ∨
         hasSub "id_rsa".data (lowerStr fp.data) = true ∨
         hasSub "secret".data (lowerStr fp.data) = true) :
    (sensitiveFileGuard fp).exitCode = 2 ∧
      sensitiveFileGuard "/home/user/project/readme.md" = ⟨0, [], []⟩ := by
  refine ⟨?_, by decide⟩
  apply guard_exit_two_of_tier1
  unfold tier1
  rcases h with h | h | h
  · exact find?_isSome_of_mem _ _ ".env" (by decide) h
  · exact find?_isSome_of_mem _ _ "id_rsa" (by decide) h
  · exact find?_isSome_of_mem _ _ "secret" (by decide) h

/-- C2 witness: `/app/config.ENV` (a casing variant of `.env`) is blocked
with exit status 2, and the readme path exits 0. -/
theorem c2_sensitive_paths_witness :
    hasSub ".env".data (lowerStr "/app/config.ENV".data) = true ∧
      (sensitiveFileGuard "/app/config.ENV").exitCode = 2 ∧
      sensitiveFileGuard "/home/user/project/readme.md" = ⟨0, [], []⟩ :=
  ⟨by decide, c2_sensitive_paths "/app/config.ENV" (Or.inl (by decide))⟩

/-- C5 counterexample: `/home/.ssh/known_hosts` is blocked (exit 2) by the
directory tier, but its casing variant `/home/.SSH/known_hosts` — same
string after lowercasing — exits 0, because the directory tier tests the
raw path case-sensitively.  So path-rule matching is not case-insensitive
for every rule. -/
theorem c5_counterexample :
    (sensitiveFileGuard "/home/.ssh/known_hosts").exitCode = 2 ∧
      lowerStr "/home/.SSH/known_hosts".data = lowerStr "/home/.ssh/known_hosts".data ∧
      (sensitiveFileGuard "/home/.SSH/known_hosts").exitCode = 0 :=
  ⟨by decide, by decide, by decide⟩

/-- C5 amended: matching is case-insensitive for the tier-one substring
rules — any letter-casing variant of a path with a tier-one match is
blocked with exit status 2 — while the `sensitive_dirs` tier matches the
raw path case-sensitively (see the counterexample). -/
theorem c5_amended_tier1_case_insensitive (p q : String)
    (hcase : lowerStr q.data = lowerStr p.data)
    (h : (tier1 p).isSome = true) :
    (sensitiveFileGuard q).exitCode = 2 := by
  apply guard_exit_two_of_tier1
  have ht : tier1 q = tier1 p := by
    unfold tier1
    simp only [hcase]
  rw [ht]
  exact h

/-- C5 amended witness: `/app/CONFIG/Secret_token.txt`, a casing variant
of a tier-one-matching path, is blocked with exit status 2. -/
theorem c5_amended_witness :
    lowerStr "/app/CONFIG/Secret_token.txt".data = lowerStr "/app/config/secret_token.txt".data ∧
      (tier1 "/app/config/secret_token.txt").isSome = true ∧
      (sensitiveFileGuard "/app/CONFIG/Secret_token.txt").exitCode = 2 :=
  ⟨by decide, by decide,
   c5_amended_tier1_case_insensitive "/app/config/secret_token.txt"
     "/app/CONFIG/Secret_token.txt" (by decide) (by decide)⟩


/-- C3 counterexample: a record that is valid JSON but not a mapping (here
the empty array) makes `data.get` raise an uncaught `AttributeError` in
both security hooks, and input that is not valid JSON makes `json.load`
raise — the process fails with the interpreter's error status instead of
exiting 0, so decoding is not total. -/
theorem c3_counterexample :
    runCommandBlocker (some (.jarr [])) = .error () ∧
      runSensitiveGuard (some (.jarr [])) = .error () ∧
      decodeField none "command" = .error () :=
  ⟨rfl, rfl, rfl⟩

/-- C3 amended: for records that decode to a JSON mapping, a missing
`tool_input` field degrades to an action with empty target fields and
both security hooks exit 0; records that are not valid JSON mappings
instead raise an uncaught decode exception (see the counterexample). -/
theorem c3_amended_decode_degrades (fs : List (String × JValue))
    (h : fs.lookup "tool_input" = none) :
    decodeField (some (.jobj fs)) "command" = .ok (.jstr "") ∧
      runCommandBlocker (some (.jobj fs)) = .ok ⟨0, [], []⟩ ∧
      runSensitiveGuard (some (.jobj fs)) = .ok ⟨0, [], []⟩ := by
  have hc : ∀ key : String, decodeField (some (.jobj fs)) key = .ok (.jstr "") := by
    intro key
    simp [decodeField, jget, h]
  refine ⟨hc "command", ?_, ?_⟩
  · unfold runCommandBlocker
    rw [hc "command"]
    rfl
  · unfold runSensitiveGuard
    rw [hc "file_path"]
    rfl

/-- C3 amended witness: the empty mapping decodes to an empty command and
both security hooks allow it with exit status 0. -/
theorem c3_amended_witness :
    ([] : List (String × JValue)).lookup "tool_input" = none ∧
      decodeField (some (.jobj [])) "command" = .ok (.jstr "") ∧
      runCommandBlocker (some (.jobj [])) = .ok ⟨0, [], []⟩ ∧
      runSensitiveGuard (some (.jobj [])) = .ok ⟨0, [], []⟩ :=
  ⟨rfl, c3_amended_decode_degrades [] rfl⟩

/-- C7: for a well-formed record in which both the `command` and the
`file_path` field decode to empty text, all four hooks exit 0 and write
nothing to either stream (the runners also invoke no external command).
-/
theorem c7_empty_targets_allow (input : Option JValue)
    (h1 : decodeField input "command" = .ok (.jstr ""))
    (h2 : decodeField input "file_path" = .ok (.jstr "")) :
    runCommandBlocker input = .ok ⟨0, [], []⟩ ∧
      runSensitiveGuard input = .ok ⟨0, [], []⟩ ∧
      (∀ (fe : Bool) (oc : FmtOutcome), autoFormat "" fe oc = (⟨0, [], []⟩, [])) ∧
      (∀ oc : TestOutcome, testOnChange "" oc = (⟨0, [], []⟩, [])) := by
  refine ⟨?_, ?_, ?_, ?_⟩
  · unfold runCommandBlocker
    rw [h1]
    rfl
  · unfold runSensitiveGuard
    rw [h2]
    rfl
  · intro fe oc; rfl
  · intro oc; rfl

/-- C7 witness: the record with an empty `tool_input` mapping decodes to
empty fields and every hook allows it silently. -/
theorem c7_witness :
    runCommandBlocker (some (.jobj [("tool_input", .jobj [])])) = .ok ⟨0, [], []⟩ ∧
      runSensitiveGuard (some (.jobj [("tool_input", .jobj [])])) = .ok ⟨0, [], []⟩ ∧
      (∀ (fe : Bool) (oc : FmtOutcome), autoFormat "" fe oc = (⟨0, [], []⟩, [])) ∧
      (∀ oc : TestOutcome, testOnChange "" oc = (⟨0, [], []⟩, [])) :=
  c7_empty_targets_allow (some (.jobj [("tool_input", .jobj [])])) rfl rfl

/-- C8: whenever a security hook terminates normally (well-formed input),
its exit status is 0 or 2 — never the generic-failure status 1, so a 1
from these hooks can never be a policy denial. -/
theorem c8_security_exit_zero_or_two (input : Option JValue) (ra rb : HookResult)
    (h1 : runCommandBlocker input = .ok ra)
    (h2 : runSensitiveGuard input = .ok rb) :
    (ra.exitCode = 0 ∨ ra.exitCode = 2) ∧ (rb.exitCode = 0 ∨ rb.exitCode = 2) := by
  constructor
  · unfold runCommandBlocker at h1
    split at h1
    · cases h1
    · cases h1
      exact blocker_exit_zero_or_two _
    · cases h1
  · unfold runSensitiveGuard at h2
    split at h2
    · cases h2
    · cases h2
      exact guard_exit_zero_or_two _
    · cases h2

/-- C8 witness: instantiated at the empty-mapping record, where both
hooks exit 0. -/
theorem c8_security_exit_zero_or_two_witness :
    (((⟨0, [], []⟩ : HookResult).exitCode = 0 ∨ (⟨0, [], []⟩ : HookResult).exitCode = 2) ∧
      ((⟨0, [], []⟩ : HookResult).exitCode = 0 ∨ (⟨0, [], []⟩ : HookResult).exitCode = 2)) :=
  c8_security_exit_zero_or_two (some (.jobj [])) ⟨0, [], []⟩ ⟨0, [], []⟩ rfl rfl

/-- C10: when the target file does not exist at invocation time
(`os.path.exists` is false), the formatting hook exits 0 and invokes no
external formatter, whatever the path and the would-be formatter
outcome — in particular also for mapped extensions. -/
theorem c10_nonexistent_file_allows (p : String) (oc : FmtOutcome) :
    autoFormat p false oc = (⟨0, [], []⟩, []) := by
  unfold autoFormat
  simp


/-- Branch analysis of `auto-format.py`: either a guard fires (empty or
nonexistent path, unmapped extension) and nothing is invoked, or the
formatter for the extension is invoked and its outcome is classified. -/
theorem autoFormat_cases (p : String) (fe : Bool) (oc : FmtOutcome) :
    autoFormat p fe oc = (⟨0, [], []⟩, []) ∨
      ∃ f, formatters.find? (fun f => f.1 == String.mk (extOf p.data)) = some f ∧
        autoFormat p fe oc =
          ((match oc with
            | .completed code =>
                if code == 0 then ⟨0, ["✓ Formatted " ++ p], []⟩ else ⟨1, [], []⟩
            | .missing => ⟨1, [], ["Formatter not available"]⟩
            | .timedOut => ⟨1, [], ["Formatter timeout"]⟩),
           [f.2 ++ [p]]) := by
  unfold autoFormat
  by_cases h1 : (p == "" || !fe) = true
  · rw [if_pos h1]
    exact Or.inl rfl
  · rw [if_neg h1]
    cases hf : formatters.find? (fun f => f.1 == String.mk (extOf p.data)) with
    | none => exact Or.inl rfl
    | some f =>
        right
        refine ⟨f, rfl, ?_⟩
        cases oc with
        | completed code =>
            by_cases h5 : (code == 0) = true
            · simp only [if_pos h5]
            · simp only [if_neg h5]
        | missing => rfl
        | timedOut => rfl

/-- Branch analysis of `test-on-change.py`: either a skip guard fires
(empty path, unmapped extension, test/config path) and nothing is
invoked, or the test command is invoked and its outcome is classified. -/
theorem testOnChange_cases (q : String) (oc : TestOutcome) :
    testOnChange q oc = (⟨0, [], []⟩, []) ∨
      ((testOnChange q oc).2 = [testCmdFor q] ∧
        (testOnChange q oc).1 =
          match oc with
          | .completed code =>
              if code == 0 then ⟨0, ["✓ Tests passing for " ++ q], []⟩
              else ⟨1, [], ["⚠️ Tests failed after editing " ++ q]⟩
          | .missing => ⟨0, [], []⟩
          | .timedOut => ⟨0, [], ["Test timeout for " ++ q]⟩
          | .otherError msg => ⟨0, [], ["Could not run tests: " ++ msg]⟩) := by
  unfold testOnChange
  by_cases h1 : (q == "") = true
  · rw [if_pos h1]
    exact Or.inl rfl
  · rw [if_neg h1]
    by_cases h2 : (!(test_extensions.contains (String.mk (extOf q.data)))) = true
    · rw [if_pos h2]
      exact Or.inl rfl
    · rw [if_neg h2]
      by_cases h3 : (hasSub "test".data (lowerStr q.data) || hasSub "__tests__".data q.data) = true
      · rw [if_pos h3]
        exact Or.inl rfl
      · rw [if_neg h3]
        by_cases h4 : (hasSub ".claude".data q.data) = true
        · rw [if_pos h4]
          exact Or.inl rfl
        · rw [if_neg h4]
          right
          cases oc with
          | completed code =>
              by_cases h5 : code = 0
              · simp [h5]
              · simp [h5]
          | missing => exact ⟨rfl, rfl⟩
          | timedOut => exact ⟨rfl, rfl⟩
          | otherError msg => exact ⟨rfl, rfl⟩

/-- C4 counterexample: for the testing hook a timed-out test command
(here on `src/app.py`, whose extension is mapped to `pytest`) prints the
timeout note but exits with status 0 — not 1 as the claim requires of
every hook. -/
theorem c4_counterexample :
    testOnChange "src/app.py" .timedOut =
      (⟨0, [], ["Test timeout for src/app.py"]⟩, [["pytest", "-x", "-q", "--tb=short"]]) ∧
      (testOnChange "src/app.py" TestOutcome.timedOut).1.exitCode ≠ 1 := by
  constructor
  · decide
  · decide

/-- C4 amended: when the external command times out after being invoked,
the formatting hook prints `Formatter timeout` and exits 1, while the
testing hook prints the timeout note naming the file but exits 0. -/
theorem c4_amended_timeout (p q : String) (fe : Bool)
    (h1 : (autoFormat p fe .timedOut).2 ≠ [])
    (h2 : (testOnChange q .timedOut).2 ≠ []) :
    (autoFormat p fe .timedOut).1 = ⟨1, [], ["Formatter timeout"]⟩ ∧
      (testOnChange q .timedOut).1 = ⟨0, [], ["Test timeout for " ++ q]⟩ := by
  constructor
  · rcases autoFormat_cases p fe .timedOut with h | ⟨f, hf, h⟩
    · rw [h] at h1
      simp at h1
    · rw [h]
  · rcases testOnChange_cases q .timedOut with h | ⟨ha, hb⟩
    · rw [h] at h2
      simp at h2
    · rw [hb]

/-- C4 amended witness: a mapped, existing source path on both hooks. -/
theorem c4_amended_timeout_witness :
    (autoFormat "src/app.py" true .timedOut).2 ≠ [] ∧
      (testOnChange "src/main.js" .timedOut).2 ≠ [] ∧
      (autoFormat "src/app.py" true .timedOut).1 = ⟨1, [], ["Formatter timeout"]⟩ ∧
      (testOnChange "src/main.js" .timedOut).1 = ⟨0, [], ["Test timeout for " ++ "src/main.js"]⟩ :=
  ⟨by decide, by decide,
   c4_amended_timeout "src/app.py" "src/main.js" true (by decide) (by decide)⟩

/-- C6: when the external executable is absent (`FileNotFoundError`), the
formatting hook prints its "tool not available" note (`Formatter not
available`) and exits 1, while the testing hook exits 0 and prints
nothing. -/
theorem c6_missing_tool (p q : String) (fe : Bool)
    (h1 : (autoFormat p fe .missing).2 ≠ [])
    (h2 : (testOnChange q .missing).2 ≠ []) :
    (autoFormat p fe .missing).1 = ⟨1, [], ["Formatter not available"]⟩ ∧
      (testOnChange q .missing).1 = ⟨0, [], []⟩ := by
  constructor
  · rcases autoFormat_cases p fe .missing with h | ⟨f, hf, h⟩
    · rw [h] at h1
      simp at h1
    · rw [h]
  · rcases testOnChange_cases q .missing with h | ⟨ha, hb⟩
    · rw [h] at h2
      simp at h2
    · rw [hb]

/-- C6 witness: a mapped, existing source path on both hooks. -/
theorem c6_missing_tool_witness :
    (autoFormat "src/app.py" true .missing).2 ≠ [] ∧
      (testOnChange "src/main.js" .missing).2 ≠ [] ∧
      (autoFormat "src/app.py" true .missing).1 = ⟨1, [], ["Formatter not available"]⟩ ∧
      (testOnChange "src/main.js" .missing).1 = ⟨0, [], []⟩ :=
  ⟨by decide, by decide,
   c6_missing_tool "src/app.py" "src/main.js" true (by decide) (by decide)⟩

/-- C9: the testing hook exits 1 exactly when the test command was
invoked (no skip guard fired) and completed within the timeout with a
nonzero exit code; unmapped extensions, test/config paths, a missing
runner, a timeout, and any other exception all exit 0. -/
theorem c9_testing_exit_one_iff (q : String) (oc : TestOutcome) :
    (testOnChange q oc).1.exitCode = 1 ↔
      ((testOnChange q oc).2 ≠ [] ∧ ∃ c : Int, oc = .completed c ∧ c ≠ 0) := by
  rcases testOnChange_cases q oc with h | ⟨ha, hb⟩
  · rw [h]
    simp
  · rw [hb, ha]
    cases oc with
    | completed code =>
        by_cases h5 : (code == 0) = true
        · have hz : code = 0 := by simpa using h5
          subst hz
          simp
        · have hz : code ≠ 0 := by simpa using h5
          simp only [if_neg h5]
          simp [hz]
    | missing => simp
    | timedOut => simp
    | otherError msg => simp

end CadreHooks
